import Mathlib

/-!
Shallow embedding of the Dubai real-estate query service, modelled from
src/dubai.py and src/dubai_property_agent.py: the two /query request
handlers, keyword-based intent guard, SQL extraction from planner
intermediate steps, the post-hoc empty-result suggestion appenders, the
spelling-correction fallback, the bounded DB-connection retry loop, the
health routes, and the keyword arguments each file passes to
create_sql_agent (safety-filter wiring and iteration cap).

The generative model (ChatOpenAI) and the LangChain agent executor are
external effects; they are embedded as explicit oracle functions passed to
the handlers, so every handler is a pure function of its request body and
its oracles.
-/

/-- Substring test on character lists: true iff pat occurs contiguously.
Models the Python membership test pat in s on strings. -/
def listContains (pat : List Char) : List Char → Bool
  | [] => pat.isEmpty
  | c :: rest => pat.isPrefixOf (c :: rest) || listContains pat rest

/-- Python-style substring containment: strContains s pat models pat in s. -/
def strContains (s pat : String) : Bool :=
  listContains pat.data s.data

/-- ASCII lowercasing by structural recursion over the character list;
models Python str.lower on the ASCII texts this service handles. -/
def toLowerStr (s : String) : String :=
  String.mk (s.data.map Char.toLower)

/-- Whitespace stripping by structural recursion over the character list;
models Python str.strip. -/
def trimStr (s : String) : String :=
  String.mk
    (((s.data.dropWhile Char.isWhitespace).reverse.dropWhile
        Char.isWhitespace).reverse)

/-- JSON-like values appearing in the handlers response payloads. -/
inductive JVal where
  | null
  | str (s : String)
  | bool (b : Bool)
  | nat (n : Nat)
  | dict (kvs : List (String × String))
deriving DecidableEq

/-- A LangChain tool input: either a plain SQL string or a keyword dict
(such as the dict form with a query key used by the openai-tools agent). -/
inductive ToolInput where
  | str (s : String)
  | dict (kvs : List (String × String))
deriving DecidableEq

/-- An AgentAction from a planner intermediate step: the tool name and the
input passed to it. -/
structure AgentAction where
  tool : String
  tool_input : ToolInput
deriving DecidableEq

/-- One intermediate step of the planner: an (action, observation) tuple.
In the source every element of intermediate_steps is such a 2-tuple, so the
defensive isinstance/len checks of both handlers always pass. -/
abbrev AgentStep := AgentAction × String

/-- The dict returned by AgentExecutor.invoke: the final answer text plus
the intermediate steps (empty list when the key is absent). -/
structure AgentResult where
  output : String
  intermediate_steps : List AgentStep
deriving DecidableEq

/-- The parsed JSON body of a POST /query request: the query field (none
when the key is missing) and the history list of (role, content) pairs. -/
structure Body where
  query : Option String := none
  history : List (String × String) := []
deriving DecidableEq

/-- An instrumented handler outcome: HTTP status, JSON payload, and how
many times the planner agent and the spelling-correction LLM were invoked
while producing it. -/
structure HandlerResult where
  status : Nat
  payload : List (String × JVal)
  agentCalls : Nat
  spellCalls : Nat
deriving DecidableEq

/-- A LangChain PromptTemplate: its input variables and template text. -/
structure PromptTemplate where
  input_variables : List String
  template : String
deriving DecidableEq

/-- The keyword arguments a call to create_sql_agent passes. Optional
fields left at none model keyword arguments the call does not pass. -/
structure SqlAgentArgs where
  agent_type : String
  verbose : Bool
  handle_parsing_errors : Bool
  has_memory : Bool
  custom_prompt : Option String := none
  max_iterations : Option Nat := none
  early_stopping_method : Option String := none
deriving DecidableEq

/-- Serialize an optional raw tool input into the sql payload field, as
jsonify does in dubai.py (None, a string, or a dict). -/
def optInputJ : Option ToolInput → JVal
  | none => JVal.null
  | some (ToolInput.str s) => JVal.str s
  | some (ToolInput.dict kvs) => JVal.dict kvs

/-- Serialize an optional SQL string into the sql payload field. -/
def optStrJ : Option String → JVal
  | none => JVal.null
  | some s => JVal.str s

/-- Whether an Except value is a success; models a Python call returning
rather than raising. -/
def isOkE {ε α : Type} : Except ε α → Bool
  | Except.ok _ => true
  | Except.error _ => false

/-- The 400 response both handlers return for a missing/empty query. -/
def queryRequiredResponse : HandlerResult :=
  { status := 400
    payload := [("error", JVal.str "Query is required")]
    agentCalls := 0
    spellCalls := 0 }

/-- The 500 response the outer except branch produces when reading the
query field off an absent JSON body raises. -/
def badBodyResponse : HandlerResult :=
  { status := 500
    payload := [("error", JVal.str "AttributeError")]
    agentCalls := 0
    spellCalls := 0 }

/-- Count of sql_db_query tool invocations in a step list. -/
def countSqlSteps (steps : List AgentStep) : Nat :=
  steps.countP (fun s => s.1.tool == "sql_db_query")

namespace Dubai

/-- The fixed domain keyword list of dubai.py (line 203). -/
def keywords : List String :=
  ["dubai", "property", "apartment", "villa", "townhouse", "penthouse",
   "bedroom", "aed", "possession"]

/-- The intent guard of dubai.py (line 204): some keyword occurs as a
substring of the lowercased query. -/
def keywordMatch (q : String) : Bool :=
  keywords.any (fun kw => strContains (toLowerStr q) kw)

/-- The fixed refusal text returned for out-of-domain queries. -/
def refusalText : String :=
  "Sorry, I can only help with Dubai real estate searches."

/-- The query_checker PromptTemplate of dubai.py (lines 163-172).
Punctuation-only abridgment of the template text (source quote marks and
an arrow dropped); no theorem depends on the dropped characters. -/
def query_checker : PromptTemplate :=
  { input_variables := ["query"]
    template := "You are a SQL expert. Check this query for dangerous operations\n(DROP, DELETE, UPDATE, INSERT, ALTER, TRUNCATE, etc).\nIf dangerous return only BLOCKED.\nOtherwise return the query unchanged.\n\nQuery: {query}\n\nResult:" }

/-- The keyword arguments of the create_sql_agent call in dubai.py
(lines 174-181): llm, toolkit, verbose, agent_type, memory,
handle_parsing_errors — and nothing else: no prompt, no max_iterations,
no early_stopping_method. -/
def agent : SqlAgentArgs :=
  { agent_type := "OPENAI_FUNCTIONS"
    verbose := true
    handle_parsing_errors := true
    has_memory := true }

/-- The empty-result detection heuristic of dubai.py (line 222). -/
def broadenCond (output : String) : Bool :=
  strContains (toLowerStr output) "no " &&
    (["result", "found", "match"].any fun w => strContains (toLowerStr output) w)

/-- The suggestion dubai.py appends on detected empty results (line 223). -/
def suggestion : String := "\n\nWould you like to broaden the search?"

/-- Lines 222-223 of dubai.py: append the broadening suggestion when the
substring heuristic fires. -/
def appendBroaden (output : String) : String :=
  if broadenCond output then output ++ suggestion else output

/-- The SQL-extraction loop of dubai.py (lines 215-220): iterate over all
steps, overwriting sql at each sql_db_query action, so the last one wins;
the raw tool_input is kept verbatim. -/
def sqlLoop (acc : Option ToolInput) : List AgentStep → Option ToolInput
  | [] => acc
  | s :: rest =>
      sqlLoop (if s.1.tool == "sql_db_query" then some s.1.tool_input else acc) rest

/-- The query dubai.py exposes: the last sql_db_query tool input. -/
def extractSql (steps : List AgentStep) : Option ToolInput :=
  sqlLoop none steps

/-- The /query handler of dubai.py (lines 190-232), as a pure function of
the parsed body and the agent oracle. The oracle models
agent.invoke on the input text: ok gives the result dict, error models a
raised exception (caught by the outer except into a 500). -/
def handle_query (body : Option Body)
    (agent : String → Except String AgentResult) : HandlerResult :=
  match body with
  | none => badBodyResponse
  | some data =>
      let query := trimStr (data.query.getD "")
      if query = "" then
        queryRequiredResponse
      else if !(keywordMatch query) then
        { status := 200
          payload := [("response", JVal.str refusalText), ("sql", JVal.null)]
          agentCalls := 0
          spellCalls := 0 }
      else
        match agent query with
        | Except.error e =>
            { status := 500
              payload := [("error", JVal.str e)]
              agentCalls := 1
              spellCalls := 0 }
        | Except.ok result =>
            let sql := extractSql result.intermediate_steps
            let output := appendBroaden result.output
            { status := 200
              payload := [("response", JVal.str output), ("sql", optInputJ sql)]
              agentCalls := 1
              spellCalls := 0 }

/-- The /health route of dubai.py (lines 186-188). The route consults
nothing: the ambient database reachability is passed as a parameter only
to express that the route ignores it. -/
def health (_dbReachable : Bool) : HandlerResult :=
  { status := 200
    payload := [("status", JVal.str "healthy"), ("db_connected", JVal.bool true)]
    agentCalls := 0
    spellCalls := 0 }

end Dubai

namespace DPA

/-- The spelling/grammar correction helper of dubai_property_agent.py
(lines 248-273), as a pure function of the generative-model oracle. The
oracle models llm.invoke on the fixed correction prompt built from the
text; error models any raised exception inside the try block. The
stripped response is returned, except that an exception or an empty
stripped response falls back to the original text (corrected or text). -/
def correct_spelling_and_grammar (llm : String → Except Unit String)
    (text : String) : String :=
  match llm text with
  | Except.error _ => text
  | Except.ok response =>
      let corrected := trimStr response
      if corrected = "" then text else corrected

/-- Faithful rendering of the system message of the ChatPromptTemplate in
dubai_property_agent.py (lines 212-229), abridged to punctuation-safe text
(quote marks, the sample formatting line and markdown stars dropped); no
theorem depends on the dropped characters. -/
def systemPrompt : String :=
  "You are a helpful real estate assistant for Dubai properties only.\n- If the question is unrelated to Dubai real estate, reply ONLY: Sorry, I can only help with Dubai real estate searches.\n- For ANY question that asks to find, list, filter, compare, sort, count or show properties ALWAYS use the sql_db_query tool.\n- Table name: properties\n- Columns: id, location, building, price, type, bedrooms, size_sqft, has_pool, has_gym, has_balcony, available, possession\n- If a user asks for Price per SqFt, calculate it in SQL as (price / size_sqft).\n- Always add LIMIT 12 unless the user explicitly asks for more results.\n- Format the output nicely.\n- If no matching properties are found, suggest ways to broaden the search."

/-- The keyword arguments of the create_sql_agent call in
dubai_property_agent.py (lines 234-243): llm, toolkit, verbose,
agent_type, prompt, handle_parsing_errors, max_iterations=12,
early_stopping_method=force. -/
def agent_executor : SqlAgentArgs :=
  { agent_type := "openai-tools"
    verbose := true
    handle_parsing_errors := true
    has_memory := false
    custom_prompt := some systemPrompt
    max_iterations := some 12
    early_stopping_method := some "force" }

/-- Modelled from the spec: the planner iteration loop of the agent
executor is library code not under src/ (only its configuration is).
Following section 4.3 of the spec, it is a fuel-bounded loop: each
iteration either finishes with an answer or continues, and exhausting the
iteration budget forces a best-effort stop (ABORTED to DONE). The step
oracle gives, for each iteration index, either a final answer or none
(keep planning). Returns the answer and the number of iterations used. -/
def agentLoop (step : Nat → Option String) : Nat → Nat → String × Nat
  | 0, i => ("Agent stopped due to iteration limit.", i)
  | fuel + 1, i =>
      match step i with
      | some answer => (answer, i + 1)
      | none => agentLoop step fuel (i + 1)

/-- The empty-result detection heuristic of dubai_property_agent.py
(line 338). -/
def tipCond (output : String) : Bool :=
  (["no ", "0 ", "none"].any fun w => strContains (toLowerStr output) w) &&
    strContains (toLowerStr output) "result"

/-- The tip dubai_property_agent.py appends on detected empty results
(line 339). -/
def tip : String :=
  "\n\nTip: Try increasing the budget, removing some filters, or checking nearby areas."

/-- Lines 337-339 of dubai_property_agent.py: append the broadening tip
when the substring heuristic fires. -/
def appendTip (output : String) : String :=
  if tipCond output then output ++ tip else output

/-- The SQL-extraction loop of dubai_property_agent.py (lines 324-335):
stop at the first sql_db_query action (the break is unconditional within
that branch); a dict input yields its query entry (none when absent), a
string input is taken verbatim. -/
def extractSql : List AgentStep → Option String
  | [] => none
  | s :: rest =>
      if s.1.tool == "sql_db_query" then
        match s.1.tool_input with
        | ToolInput.str q => some q
        | ToolInput.dict kvs => List.lookup "query" kvs
      else extractSql rest

/-- History conversion of dubai_property_agent.py (lines 306-313): keep
messages whose lowercased role is user or assistant, tagging them as
human/ai messages. -/
def convertHistory (history : List (String × String)) : List (String × String) :=
  history.filterMap fun m =>
    if toLowerStr m.1 = "user" then some ("human", m.2)
    else if toLowerStr m.1 = "assistant" then some ("ai", m.2)
    else none

/-- The /query handler of dubai_property_agent.py (lines 288-352), as a
pure function of the parsed body, the spelling-correction oracle, the
agent oracle (taking the corrected input and the converted history), and
the ambient elapsed processing time in seconds (the rounded
perf_counter difference, passed in because wall-clock time is an ambient
effect). There is no keyword guard in this variant: every non-empty query
is spell-corrected and then given to the planner. -/
def handle_query (elapsed : Nat) (body : Option Body)
    (llm : String → Except Unit String)
    (agent : String → List (String × String) → Except String AgentResult) :
    HandlerResult :=
  match body with
  | none => badBodyResponse
  | some data =>
      let original := trimStr (data.query.getD "")
      if original = "" then
        queryRequiredResponse
      else
        let user_query := correct_spelling_and_grammar llm original
        let messages := convertHistory data.history
        match agent user_query messages with
        | Except.error e =>
            { status := 500
              payload := [("error", JVal.str e)]
              agentCalls := 1
              spellCalls := 1 }
        | Except.ok result =>
            let sql_used := extractSql result.intermediate_steps
            let output := appendTip result.output
            { status := 200
              payload := [("response", JVal.str output),
                          ("sql", optStrJ sql_used),
                          ("elapsed_seconds", JVal.nat elapsed)]
              agentCalls := 1
              spellCalls := 1 }

/-- Trace of get_db_connection: the outcome plus how many connection
attempts and how many sleep calls were made. -/
structure ConnTrace where
  result : Except String Nat
  attempts : Nat
  sleeps : Nat

/-- The retry loop body of get_db_connection (lines 55-62): one iteration
per attempt index; a successful connect returns at once, an
OperationalError logs, sleeps and continues. The connection oracle gives
each attempt outcome (connections are opaque Nat handles). -/
def connectLoop (oracle : Nat → Except Unit Nat) :
    List Nat → Nat → Nat → ConnTrace
  | [], att, sl =>
      { result := Except.error "Failed to connect to PostgreSQL after retries"
        attempts := att
        sleeps := sl }
  | i :: rest, att, sl =>
      match oracle i with
      | Except.ok conn => { result := Except.ok conn, attempts := att + 1, sleeps := sl }
      | Except.error _ => connectLoop oracle rest (att + 1) (sl + 1)

/-- get_db_connection of dubai_property_agent.py (lines 55-62): iterate
over range retries (default 3, delay 2 seconds per sleep), raising only
after the range is exhausted. -/
def get_db_connection (oracle : Nat → Except Unit Nat)
    (retries : Nat := 3) : ConnTrace :=
  connectLoop oracle (List.range retries) 0 0

/-- The /health route of dubai_property_agent.py (lines 278-285). As in
the other variant, the ambient database reachability parameter is ignored:
the route performs no probe. -/
def health (_dbReachable : Bool) (debugMode : Bool) (sampleRows : Nat) :
    HandlerResult :=
  { status := 200
    payload := [("status", JVal.str "healthy"),
                ("db_connected", JVal.bool true),
                ("debug_mode", JVal.bool debugMode),
                ("sample_rows", JVal.nat sampleRows)]
    agentCalls := 0
    spellCalls := 0 }

end DPA

set_option maxRecDepth 8192

/-- Substring containment is preserved by prepending: if pat occurs in b
it occurs in a ++ b. -/
theorem listContains_append_right (pat a b : List Char)
    (h : listContains pat b = true) : listContains pat (a ++ b) = true := by
  induction a with
  | nil => simpa using h
  | cons c a ih => simp [listContains, ih]

/-- String version of listContains_append_right. -/
theorem strContains_append_right (a b pat : String)
    (h : strContains b pat = true) : strContains (a ++ b) pat = true := by
  have hd : (a ++ b).data = a.data ++ b.data := by
    cases a; cases b; rfl
  unfold strContains at h ⊢
  rw [hd]
  exact listContains_append_right _ _ _ h

/-- The modelled executor loop never uses more iterations than its fuel. -/
theorem agentLoop_iters_le (step : Nat → Option String) :
    ∀ fuel i, (DPA.agentLoop step fuel i).2 ≤ i + fuel := by
  intro fuel
  induction fuel with
  | zero => intro i; simp [DPA.agentLoop]
  | succ n ih =>
      intro i
      have hih := ih (i + 1)
      unfold DPA.agentLoop
      cases h : step i with
      | some answer => simp
      | none =>
          dsimp only
          omega

/-- The dubai.py extraction loop leaves its accumulator unchanged over a
step list with no sql_db_query invocation. -/
theorem sqlLoop_nosql (steps : List AgentStep) :
    ∀ acc, countSqlSteps steps = 0 → Dubai.sqlLoop acc steps = acc := by
  induction steps with
  | nil => intro acc _; rfl
  | cons s rest ih =>
      intro acc h
      simp only [countSqlSteps, List.countP_cons] at h
      cases hb : (s.1.tool == "sql_db_query") with
      | true =>
          rw [hb, if_pos rfl] at h
          omega
      | false =>
          rw [hb, if_neg (by decide : ¬ false = true), Nat.add_zero] at h
          simp [Dubai.sqlLoop, hb]
          exact ih acc h

/-- C1: the spec demands that every structured query actually executed be
classified SAFE first, and that a BLOCKED query never be executed. The
code defines the classifier only as the query_checker prompt of dubai.py
(its template names BLOCKED and the mutating keywords), but the
create_sql_agent call of dubai.py passes no prompt or checker argument of
any kind, and the other variant passes a prompt that performs no BLOCKED
classification — so no executed query is ever classified by the Safety
Filter: the safety invariant is not enforced anywhere in the code. -/
theorem safety_filter_not_wired :
    Dubai.agent.custom_prompt = none ∧
    strContains Dubai.query_checker.template "BLOCKED" = true ∧
    strContains Dubai.query_checker.template "DROP" = true ∧
    DPA.agent_executor.custom_prompt = some DPA.systemPrompt ∧
    strContains DPA.systemPrompt "BLOCKED" = false :=
  ⟨rfl, by decide, by decide, rfl, by decide⟩

/-- C2 counterexample: for the non-empty keyword-free input
hello world, the dubai_property_agent.py handler does invoke the planner
agent (one invocation, not zero) and returns whatever the agent says
rather than the fixed refusal, because that variant has no keyword
short-circuit; so the claim fails on that handler. -/
theorem refusal_shortcircuit_counterexample :
    (DPA.handle_query 0 (some { query := some "hello world", history := [] })
        (fun _ => Except.error ())
        (fun _ _ => Except.ok
          { output := "The answer is 42", intermediate_steps := [] })).agentCalls = 1 ∧
    (DPA.handle_query 0 (some { query := some "hello world", history := [] })
        (fun _ => Except.error ())
        (fun _ _ => Except.ok
          { output := "The answer is 42",
            intermediate_steps := [] })).payload.lookup "response" =
      some (JVal.str "The answer is 42") ∧
    Dubai.keywordMatch "hello world" = false :=
  ⟨by decide, by decide, by decide⟩

/-- C2 (amended): only the dubai.py handler short-circuits: for a body
whose stripped query is non-empty and matches no domain keyword it
returns HTTP 200 with the fixed refusal text and a null sql field and
never invokes the agent, for every agent oracle. The agent variant always
runs the spelling corrector and the planner. -/
theorem refusal_shortcircuit_dubai (data : Body)
    (agent : String → Except String AgentResult)
    (h1 : ¬ trimStr (data.query.getD "") = "")
    (h2 : Dubai.keywordMatch (trimStr (data.query.getD "")) = false) :
    Dubai.handle_query (some data) agent =
      { status := 200
        payload := [("response", JVal.str Dubai.refusalText), ("sql", JVal.null)]
        agentCalls := 0
        spellCalls := 0 } := by
  simp [Dubai.handle_query, h1, h2]

/-- C2 witness: the amended refusal theorem at the concrete keyword-free
input hello world. -/
theorem refusal_shortcircuit_dubai_witness :
    Dubai.handle_query (some { query := some "hello world", history := [] })
        (fun _ => Except.ok { output := "", intermediate_steps := [] }) =
      { status := 200
        payload := [("response", JVal.str Dubai.refusalText), ("sql", JVal.null)]
        agentCalls := 0
        spellCalls := 0 } :=
  refusal_shortcircuit_dubai _ _ (by decide) (by decide)

/-- C3: both handlers reject a missing or whitespace-only query field with
the fixed error payload and HTTP 400 before invoking the spelling
corrector or the planner (zero invocations of either). -/
theorem empty_query_rejected (elapsed : Nat) (data : Body)
    (llm : String → Except Unit String)
    (agentD : String → Except String AgentResult)
    (agentP : String → List (String × String) → Except String AgentResult)
    (h : trimStr (data.query.getD "") = "") :
    Dubai.handle_query (some data) agentD = queryRequiredResponse ∧
    DPA.handle_query elapsed (some data) llm agentP = queryRequiredResponse := by
  constructor
  · simp [Dubai.handle_query, h]
  · simp [DPA.handle_query, h]

/-- C3 witness: the rejection theorem at a body with the query key
missing. -/
theorem empty_query_rejected_witness :
    Dubai.handle_query (some { query := none, history := [] })
        (fun _ => Except.ok { output := "", intermediate_steps := [] }) =
      queryRequiredResponse ∧
    DPA.handle_query 0 (some { query := none, history := [] })
        (fun _ => Except.error ())
        (fun _ _ => Except.ok { output := "", intermediate_steps := [] }) =
      queryRequiredResponse :=
  empty_query_rejected 0 { query := none, history := [] } _ _ _ (by decide)

/-- C4 counterexample: the dubai.py variant creates its agent without
max_iterations and without early_stopping_method, so that agent is not
configured with the hard cap of 12 and the forced early stop the claim
asserts for the system. -/
theorem iteration_cap_counterexample :
    Dubai.agent.max_iterations = none ∧
    Dubai.agent.early_stopping_method = none :=
  ⟨rfl, rfl⟩

/-- C4 (amended): dubai_property_agent.py configures its executor with
max_iterations = 12 and early_stopping_method force, and the
spec-modelled fuel-bounded executor loop run with that cap uses at most
12 iterations for every step oracle, so its resolution always terminates;
dubai.py passes no such arguments. -/
theorem iteration_cap_amended :
    DPA.agent_executor.max_iterations = some 12 ∧
    DPA.agent_executor.early_stopping_method = some "force" ∧
    ∀ step : Nat → Option String, (DPA.agentLoop step 12 0).2 ≤ 12 :=
  ⟨rfl, rfl, fun step => by simpa using agentLoop_iters_le step 12 0⟩

/-- C4 witness: the amended bound at a concrete step oracle that never
finishes on its own. -/
theorem iteration_cap_amended_witness :
    (DPA.agentLoop (fun _ => none) 12 0).2 ≤ 12 :=
  iteration_cap_amended.2.2 (fun _ => none)

/-- C5: the correction stage falls back to the original text whenever the
underlying mechanism raises or returns a string that is empty after
stripping; it is a total function of its oracle, so a correction failure
never fails the request. -/
theorem spell_correction_fallback (llm : String → Except Unit String)
    (text : String) :
    (∀ e, llm text = Except.error e →
      DPA.correct_spelling_and_grammar llm text = text) ∧
    (∀ r, llm text = Except.ok r → trimStr r = "" →
      DPA.correct_spelling_and_grammar llm text = text) := by
  constructor
  · intro e he
    simp [DPA.correct_spelling_and_grammar, he]
  · intro r hr hempty
    simp [DPA.correct_spelling_and_grammar, hr, hempty]

/-- C5 witness: the fallback theorem at a concrete raising oracle. -/
theorem spell_correction_fallback_witness :
    DPA.correct_spelling_and_grammar (fun _ => Except.error ()) "helo dubai" =
      "helo dubai" :=
  (spell_correction_fallback (fun _ => Except.error ()) "helo dubai").1 () rfl

/-- C6 counterexample: the answer text Nothing matched your search.
announces that zero rows matched, yet neither variant appends any
broadening suggestion to it: both append functions return it unchanged
and the returned text contains no suggestion. -/
theorem empty_result_tip_counterexample :
    Dubai.appendBroaden "Nothing matched your search." =
      "Nothing matched your search." ∧
    DPA.appendTip "Nothing matched your search." =
      "Nothing matched your search." ∧
    strContains "Nothing matched your search." "broaden" = false ∧
    strContains "Nothing matched your search." "Tip" = false :=
  ⟨by decide, by decide, by decide, by decide⟩

/-- C6 (amended): a broadening suggestion is appended exactly when the
answer text matches the hard-coded substring heuristics — dubai.py
appends its suggestion when the lowercased text contains a no-with-space
token and one of result/found/match, the agent variant appends its tip
when it contains one of its three empty-markers and result; any other
answer text, including other phrasings of an empty result, is returned
unchanged. -/
theorem empty_result_tip_amended (output : String) :
    (Dubai.broadenCond output = true →
      strContains (Dubai.appendBroaden output) "broaden the search" = true) ∧
    (Dubai.broadenCond output = false → Dubai.appendBroaden output = output) ∧
    (DPA.tipCond output = true →
      strContains (DPA.appendTip output) "Tip: Try increasing the budget" = true) ∧
    (DPA.tipCond output = false → DPA.appendTip output = output) := by
  refine ⟨fun h => ?_, fun h => ?_, fun h => ?_, fun h => ?_⟩
  · simp only [Dubai.appendBroaden, h, if_true]
    exact strContains_append_right _ _ _ (by decide)
  · simp [Dubai.appendBroaden, h]
  · simp only [DPA.appendTip, h, if_true]
    exact strContains_append_right _ _ _ (by decide)
  · simp [DPA.appendTip, h]

/-- C6 witness: the amended theorem at the concrete answer text
No results found., which fires both heuristics. -/
theorem empty_result_tip_amended_witness :
    strContains (Dubai.appendBroaden "No results found.")
      "broaden the search" = true ∧
    strContains (DPA.appendTip "No results found.")
      "Tip: Try increasing the budget" = true :=
  ⟨(empty_result_tip_amended "No results found.").1 (by decide),
   (empty_result_tip_amended "No results found.").2.2.1 (by decide)⟩

/-- C7: get_db_connection makes at most 3 connection attempts with a
sleep after each failed one, succeeds as soon as one attempt succeeds,
and produces the failure result exactly when all 3 attempts fail, after
which it stops — the retry is bounded, never unbounded. -/
theorem db_retry_bounded (oracle : Nat → Except Unit Nat) :
    (DPA.get_db_connection oracle).attempts ≤ 3 ∧
    (DPA.get_db_connection oracle).sleeps ≤ 3 ∧
    (isOkE (DPA.get_db_connection oracle).result = true ∨
      ((DPA.get_db_connection oracle).attempts = 3 ∧
        (DPA.get_db_connection oracle).sleeps = 3)) ∧
    (isOkE (DPA.get_db_connection oracle).result = false ↔
      (isOkE (oracle 0) = false ∧ isOkE (oracle 1) = false ∧
        isOkE (oracle 2) = false)) := by
  have hr : DPA.get_db_connection oracle = DPA.connectLoop oracle [0, 1, 2] 0 0 := rfl
  rw [hr]
  rcases h0 : oracle 0 with e0 | c0 <;> rcases h1 : oracle 1 with e1 | c1 <;>
    rcases h2 : oracle 2 with e2 | c2 <;>
      simp [DPA.connectLoop, h0, h1, h2, isOkE]

/-- C7 witness: the retry bound at the concrete always-failing oracle. -/
theorem db_retry_bounded_witness :
    (DPA.get_db_connection (fun _ => Except.error ())).attempts ≤ 3 :=
  (db_retry_bounded (fun _ => Except.error ())).1

/-- C8 counterexample: a successful dubai.py response carries only the
response and sql fields: its payload has no elapsed_seconds entry at all
(the handler computes the elapsed time but only logs it), so the claim
that every successful resolve payload contains the elapsed time fails on
that variant. -/
theorem elapsed_field_counterexample :
    (Dubai.handle_query (some { query := some "dubai apartments", history := [] })
        (fun _ => Except.ok
          { output := "Here are the results"
            intermediate_steps :=
              [({ tool := "sql_db_query",
                  tool_input := ToolInput.str "SELECT * FROM properties LIMIT 12" },
                "rows")] })).payload.lookup "elapsed_seconds" = none ∧
    (Dubai.handle_query (some { query := some "dubai apartments", history := [] })
        (fun _ => Except.ok
          { output := "Here are the results"
            intermediate_steps :=
              [({ tool := "sql_db_query",
                  tool_input := ToolInput.str "SELECT * FROM properties LIMIT 12" },
                "rows")] })).status = 200 :=
  ⟨by decide, by decide⟩

/-- C8 (amended): on the success path both variants expose the answer
text and the extracted query verbatim (null when no sql_db_query step
occurred), but only dubai_property_agent.py additionally includes the
elapsed seconds in the payload; dubai.py returns response and sql only. -/
theorem response_payload_amended (elapsed : Nat) (data : Body)
    (llm : String → Except Unit String)
    (agentD : String → Except String AgentResult)
    (agentP : String → List (String × String) → Except String AgentResult)
    (rD rP : AgentResult)
    (h1 : ¬ trimStr (data.query.getD "") = "")
    (hkw : Dubai.keywordMatch (trimStr (data.query.getD "")) = true)
    (hD : agentD (trimStr (data.query.getD "")) = Except.ok rD)
    (hP : agentP
        (DPA.correct_spelling_and_grammar llm (trimStr (data.query.getD "")))
        (DPA.convertHistory data.history) = Except.ok rP) :
    (Dubai.handle_query (some data) agentD).payload =
      [("response", JVal.str (Dubai.appendBroaden rD.output)),
       ("sql", optInputJ (Dubai.extractSql rD.intermediate_steps))] ∧
    (DPA.handle_query elapsed (some data) llm agentP).payload =
      [("response", JVal.str (DPA.appendTip rP.output)),
       ("sql", optStrJ (DPA.extractSql rP.intermediate_steps)),
       ("elapsed_seconds", JVal.nat elapsed)] := by
  constructor
  · simp [Dubai.handle_query, h1, hkw, hD]
  · simp [DPA.handle_query, h1, hP]

/-- C8 witness: the amended payload theorem at a concrete in-domain
request with one sql_db_query step. -/
theorem response_payload_amended_witness :
    (Dubai.handle_query (some { query := some "dubai villas", history := [] })
        (fun _ => Except.ok
          { output := "Found 5 villas"
            intermediate_steps :=
              [({ tool := "sql_db_query", tool_input := ToolInput.str "SELECT 1" },
                "obs")] })).payload =
      [("response", JVal.str (Dubai.appendBroaden "Found 5 villas")),
       ("sql", optInputJ (Dubai.extractSql
          [({ tool := "sql_db_query", tool_input := ToolInput.str "SELECT 1" },
            "obs")]))] ∧
    (DPA.handle_query 7 (some { query := some "dubai villas", history := [] })
        (fun _ => Except.ok "dubai villas")
        (fun _ _ => Except.ok
          { output := "Found 5 villas"
            intermediate_steps :=
              [({ tool := "sql_db_query", tool_input := ToolInput.str "SELECT 1" },
                "obs")] })).payload =
      [("response", JVal.str (DPA.appendTip "Found 5 villas")),
       ("sql", optStrJ (DPA.extractSql
          [({ tool := "sql_db_query", tool_input := ToolInput.str "SELECT 1" },
            "obs")])),
       ("elapsed_seconds", JVal.nat 7)] :=
  response_payload_amended 7 { query := some "dubai villas", history := [] }
    (fun _ => Except.ok "dubai villas")
    (fun _ => Except.ok
      { output := "Found 5 villas"
        intermediate_steps :=
          [({ tool := "sql_db_query", tool_input := ToolInput.str "SELECT 1" },
            "obs")] })
    (fun _ _ => Except.ok
      { output := "Found 5 villas"
        intermediate_steps :=
          [({ tool := "sql_db_query", tool_input := ToolInput.str "SELECT 1" },
            "obs")] })
    { output := "Found 5 villas"
      intermediate_steps :=
        [({ tool := "sql_db_query", tool_input := ToolInput.str "SELECT 1" },
          "obs")] }
    { output := "Found 5 villas"
      intermediate_steps :=
        [({ tool := "sql_db_query", tool_input := ToolInput.str "SELECT 1" },
          "obs")] }
    (by decide) (by decide) rfl rfl

/-- C9: the health routes are constant functions: they ignore the ambient
database reachability entirely (they perform no probe) and always report
status healthy with db_connected true. -/
theorem health_constant (dbUp dbUp' debugMode : Bool) (sampleRows : Nat) :
    Dubai.health dbUp = Dubai.health dbUp' ∧
    (Dubai.health dbUp).payload.lookup "db_connected" = some (JVal.bool true) ∧
    (Dubai.health dbUp).payload.lookup "status" = some (JVal.str "healthy") ∧
    (Dubai.health dbUp).status = 200 ∧
    DPA.health dbUp debugMode sampleRows = DPA.health dbUp' debugMode sampleRows ∧
    (DPA.health dbUp debugMode sampleRows).payload.lookup "db_connected" =
      some (JVal.bool true) ∧
    (DPA.health dbUp debugMode sampleRows).payload.lookup "status" =
      some (JVal.str "healthy") :=
  ⟨rfl, rfl, rfl, rfl, rfl, rfl, rfl⟩

/-- C9 witness: the health theorem with the ambient database down. -/
theorem health_constant_witness :
    (Dubai.health false).payload.lookup "db_connected" =
      some (JVal.bool true) :=
  (health_constant false true false 0).2.1

/-- C10 counterexample: on a step list with two sql_db_query invocations
the dubai_property_agent.py extraction reports the first query while the
dubai.py extraction reports the last, so the two procedures are not
equivalent. -/
theorem sql_extraction_counterexample :
    DPA.extractSql
        [({ tool := "sql_db_query", tool_input := ToolInput.str "SELECT 1" }, "o1"),
         ({ tool := "sql_db_query", tool_input := ToolInput.str "SELECT 2" }, "o2")] =
      some "SELECT 1" ∧
    Dubai.extractSql
        [({ tool := "sql_db_query", tool_input := ToolInput.str "SELECT 1" }, "o1"),
         ({ tool := "sql_db_query", tool_input := ToolInput.str "SELECT 2" }, "o2")] =
      some (ToolInput.str "SELECT 2") ∧
    (DPA.extractSql
        [({ tool := "sql_db_query", tool_input := ToolInput.str "SELECT 1" }, "o1"),
         ({ tool := "sql_db_query", tool_input := ToolInput.str "SELECT 2" }, "o2")]).map
        ToolInput.str ≠
      Dubai.extractSql
        [({ tool := "sql_db_query", tool_input := ToolInput.str "SELECT 1" }, "o1"),
         ({ tool := "sql_db_query", tool_input := ToolInput.str "SELECT 2" }, "o2")] :=
  ⟨by decide, by decide, by decide⟩

/-- C10 (amended): the two extraction procedures agree whenever the step
list contains at most one sql_db_query invocation and any such invocation
carries a plain string input: both then expose that single query, or none.
They diverge when several sql_db_query steps occur (first versus last) or
when the single input is a dict. -/
theorem sql_extraction_agree (steps : List AgentStep) :
    countSqlSteps steps ≤ 1 →
    (∀ s ∈ steps, s.1.tool = "sql_db_query" →
      ∃ q, s.1.tool_input = ToolInput.str q) →
    (DPA.extractSql steps).map ToolInput.str = Dubai.extractSql steps := by
  induction steps with
  | nil => intro _ _; rfl
  | cons s rest ih =>
      intro h1 h2
      simp only [countSqlSteps, List.countP_cons] at h1
      cases hb : (s.1.tool == "sql_db_query") with
      | true =>
          have ht : s.1.tool = "sql_db_query" := eq_of_beq hb
          obtain ⟨q, hq⟩ := h2 s (List.mem_cons_self _ _) ht
          rw [hb, if_pos rfl] at h1
          have hrest : countSqlSteps rest = 0 := by
            unfold countSqlSteps
            omega
          simp only [DPA.extractSql, Dubai.extractSql, Dubai.sqlLoop, hb, hq,
            if_true]
          rw [sqlLoop_nosql rest (some (ToolInput.str q)) hrest]
          rfl
      | false =>
          rw [hb, if_neg (by decide : ¬ false = true), Nat.add_zero] at h1
          have h2' : ∀ s' ∈ rest, s'.1.tool = "sql_db_query" →
              ∃ q, s'.1.tool_input = ToolInput.str q :=
            fun s' hs' => h2 s' (List.mem_cons_of_mem _ hs')
          have hgoal := ih h1 h2'
          simpa [DPA.extractSql, Dubai.extractSql, Dubai.sqlLoop, hb] using hgoal

/-- C10 witness: the agreement theorem at a concrete single-step list. -/
theorem sql_extraction_agree_witness :
    (DPA.extractSql
        [({ tool := "sql_db_query", tool_input := ToolInput.str "SELECT 1" }, "o")]).map
        ToolInput.str =
      Dubai.extractSql
        [({ tool := "sql_db_query", tool_input := ToolInput.str "SELECT 1" }, "o")] :=
  sql_extraction_agree _ (by decide)
    (by
      intro s hs ht
      simp only [List.mem_singleton] at hs
      subst hs
      exact ⟨"SELECT 1", rfl⟩)
